import Mathlib

/-
Shallow embedding of sendpost/go-esp-example (src/main.go).

Modelling conventions:
- Each Go step method on ESPExample becomes a pure Lean function from the
  mutable receiver state (RunState) and the result of its external API
  call(s) to a triple (StepOutcome, new RunState, list of API calls made).
- A Go SDK call returning (value, resp, err) is modelled by ApiResult:
  ApiResult.ok value for err == nil, ApiResult.err (some code) for
  err != nil with a non-nil *http.Response, and ApiResult.err none for
  err != nil with resp == nil (transport failure). In the latter case the
  Go error branch evaluates resp.StatusCode, a nil-pointer dereference
  that panics; this is modelled by the StepOutcome.panicked outcome,
  which aborts the remaining run in runSteps.
- time.Now() is modelled by its local calendar date as an integer day
  index (passed in by the environment, one per call site, since each step
  calls time.Now() itself); AddDate(0, 0, -7) is subtraction of 7 days and
  Format with layout 2006-01-02 renders exactly that date, so equality of
  the rendered date strings is equality of the day indexes.
- time.Now().Unix() used to build names is likewise an integer parameter.
-/

namespace ESP

/-- Result of one Go SDK Execute() call: ok carries the decoded value;
err carries (some statusCode) when the error came with a non-nil HTTP
response and none when the response pointer was nil. -/
inductive ApiResult (α : Type) where
  | ok (value : α)
  | err (resp : Option Int)
deriving DecidableEq

/-- True unless the call failed with a nil HTTP response. -/
def ApiResult.hasResp {α : Type} : ApiResult α → Bool
  | .err none => false
  | _ => true

/-- The mutable fields of the Go ESPExample struct that steps write
(the run state threaded through the workflow). Go zero values: nil
pointers become none, empty strings stay empty strings. -/
structure RunState where
  createdSubAccountID : Option Int
  createdSubAccountKey : String
  createdWebhookID : Option Int
  createdDomainID : String
  createdIPPoolID : Option Int
  createdIPPoolName : String
  sentMessageID : String
deriving DecidableEq

/-- Zero-valued ESPExample state at the start of a run. -/
def initialRunState : RunState :=
  { createdSubAccountID := none
    createdSubAccountKey := ""
    createdWebhookID := none
    createdDomainID := ""
    createdIPPoolID := none
    createdIPPoolName := ""
    sentMessageID := "" }

/-- sendpost.SubAccount fields read by the program. -/
structure SubAccount where
  Id : Option Int
  Name : Option String
  ApiKey : Option String
  Typ : Option Int
  Blocked : Option Bool
  Created : Option Int
deriving DecidableEq

/-- sendpost.Webhook fields read by the program. -/
structure Webhook where
  Id : Option Int
  Url : Option String
  Enabled : Option Bool
deriving DecidableEq

/-- sendpost.Domain fields read by the program (Dkim omitted: print only). -/
structure Domain where
  Id : Option Int
  Name : Option String
  Verified : Option Bool
deriving DecidableEq

/-- sendpost.IP fields read by the program. -/
structure IP where
  Id : Int
  PublicIP : String
  ReverseDNSHostname : Option String
  Created : Int
deriving DecidableEq

/-- sendpost.IPPool fields read by the program. -/
structure IPPool where
  Id : Option Int
  Name : Option String
  RoutingStrategy : Option Int
  Ips : Option (List IP)
deriving DecidableEq

/-- sendpost.IPPoolCreateRequest as built by CreateIPPool (ips reduced to
their public addresses, the only data NewEIP receives). -/
structure IPPoolCreateRequest where
  Name : String
  RoutingStrategy : Int
  Ips : List String
  WarmupInterval : Int
  OverflowStrategy : Int
deriving DecidableEq

/-- One element of the response list of emailAPI.SendEmail. -/
structure EmailResponse where
  MessageId : Option String
  To : Option String
deriving DecidableEq

/-- The external API operations the program can invoke, with the request
data relevant to the spec claims. -/
inductive Call where
  | getAllSubAccounts
  | createSubAccountCall (name : String)
  | createWebhookCall (url : String)
  | getAllWebhooks
  | subaccountDomainPost (name : String)
  | getAllDomains
  | getAllIps
  | createIPPoolCall (req : IPPoolCreateRequest)
  | getAllIPPools
  | sendEmail (ippool : String)
  | accountSubaccountStatGet (id fromDate toDate : Int)
  | accountSubaccountStatAggregateGet (id fromDate toDate : Int)
  | getAllAccountStats (fromDate toDate : Int)
  | getMessageById (messageId : String)
deriving DecidableEq

/-- How a step finished: success (confirmation printed), silent (no error
and no confirmation printed: empty send-response list), failure (error
printed, early return), skipped (prerequisite missing, early return before
any API call, or no IPs for pool creation), panicked (err with nil
response: resp.StatusCode dereference panics). -/
inductive StepOutcome where
  | success
  | silent
  | failure
  | skipped
  | panicked
deriving DecidableEq

/-- A step returns its outcome, the updated state and the API calls it
made, in order. -/
abbrev StepRet := StepOutcome × RunState × List Call

def outcomeOf (r : StepRet) : StepOutcome := r.1

def stateOf (r : StepRet) : RunState := r.2.1

def callsOf (r : StepRet) : List Call := r.2.2

/-- Configuration constants from main.go. -/
def basePath : String := "https://api.sendpost.io/api/v1"

def testFromEmail : String := "sender@yourdomain.com"

def testToEmail : String := "recipient@example.com"

def testDomainName : String := "yourdomain.com"

def webhookURL : String := "https://your-webhook-endpoint.com/webhook"

def accountKeyDefault : String := "YOUR_ACCOUNT_API_KEY_HERE"

def subAccountKeyDefault : String := "YOUR_SUB_ACCOUNT_API_KEY_HERE"

/-- Body of the range loop in ListSubAccounts: adopt the first
sub-account if none is selected yet. -/
def adoptSubAccount (s : RunState) (sa : SubAccount) : RunState :=
  match s.createdSubAccountID, sa.Id with
  | none, some i =>
      let s1 := { s with createdSubAccountID := some i }
      match sa.ApiKey with
      | some k => { s1 with createdSubAccountKey := k }
      | none => s1
  | _, _ => s

/-- The range loop of ListSubAccounts. Each iteration first prints
the dereference of subAccount.Id UNCONDITIONALLY (main.go line 108), a
nil-pointer panic when Id is nil, before the guarded adoption at the end
of the body; state written by earlier iterations survives the panic. -/
def subAccountsLoop (s : RunState) : List SubAccount → StepOutcome × RunState
  | [] => (.success, s)
  | sa :: rest =>
      match sa.Id with
      | none => (.panicked, s)
      | some _ => subAccountsLoop (adoptSubAccount s sa) rest

/-- True when a successful sub-account listing contains no nil-Id entry
(the case that would panic the success path of ListSubAccounts). -/
def noNilIdListed : ApiResult (List SubAccount) → Bool
  | .ok sas => sas.all (fun sa => sa.Id.isSome)
  | .err _ => true

/-- Step: ListSubAccounts (main.go, GetAllSubAccounts, account scope). -/
def ListSubAccounts (s : RunState) (r : ApiResult (List SubAccount)) : StepRet :=
  match r with
  | .err (some _) => (.failure, s, [.getAllSubAccounts])
  | .err none => (.panicked, s, [.getAllSubAccounts])
  | .ok sas =>
      let p := subAccountsLoop s sas
      (p.1, p.2, [.getAllSubAccounts])

/-- Step: CreateSubAccount (main.go; defined on ESPExample but never
invoked by RunCompleteWorkflow). nowUnix models time.Now().Unix(). -/
def CreateSubAccount (s : RunState) (nowUnix : Int) (r : ApiResult SubAccount) : StepRet :=
  let nm := "ESP Client - " ++ toString nowUnix
  match r with
  | .err (some _) => (.failure, s, [.createSubAccountCall nm])
  | .err none => (.panicked, s, [.createSubAccountCall nm])
  | .ok sa =>
      let s1 := match sa.Id with
        | some i => { s with createdSubAccountID := some i }
        | none => s
      let s2 := match sa.ApiKey with
        | some k => { s1 with createdSubAccountKey := k }
        | none => s1
      (.success, s2, [.createSubAccountCall nm])

/-- Step: CreateWebhook (account scope). -/
def CreateWebhook (s : RunState) (r : ApiResult Webhook) : StepRet :=
  match r with
  | .err (some _) => (.failure, s, [.createWebhookCall webhookURL])
  | .err none => (.panicked, s, [.createWebhookCall webhookURL])
  | .ok wh =>
      let s1 := match wh.Id with
        | some i => { s with createdWebhookID := some i }
        | none => s
      (.success, s1, [.createWebhookCall webhookURL])

/-- Step: ListWebhooks (read-only). -/
def ListWebhooks (s : RunState) (r : ApiResult (List Webhook)) : StepRet :=
  match r with
  | .err (some _) => (.failure, s, [.getAllWebhooks])
  | .err none => (.panicked, s, [.getAllWebhooks])
  | .ok _ => (.success, s, [.getAllWebhooks])

/-- Step: AddDomain (sub-account scope); strconv.FormatInt(id, 10) is
decimal rendering, modelled by toString on Int. -/
def AddDomain (s : RunState) (r : ApiResult Domain) : StepRet :=
  match r with
  | .err (some _) => (.failure, s, [.subaccountDomainPost testDomainName])
  | .err none => (.panicked, s, [.subaccountDomainPost testDomainName])
  | .ok d =>
      let s1 := match d.Id with
        | some i => { s with createdDomainID := toString i }
        | none => s
      (.success, s1, [.subaccountDomainPost testDomainName])

/-- Step: ListDomains (read-only). -/
def ListDomains (s : RunState) (r : ApiResult (List Domain)) : StepRet :=
  match r with
  | .err (some _) => (.failure, s, [.getAllDomains])
  | .err none => (.panicked, s, [.getAllDomains])
  | .ok _ => (.success, s, [.getAllDomains])

/-- Step: ListIPs (read-only). -/
def ListIPs (s : RunState) (r : ApiResult (List IP)) : StepRet :=
  match r with
  | .err (some _) => (.failure, s, [.getAllIps])
  | .err none => (.panicked, s, [.getAllIps])
  | .ok _ => (.success, s, [.getAllIps])

/-- The IPPoolCreateRequest CreateIPPool builds from a non-empty IP
list: fixed round-robin routing (0), warmup 24 hours, overflow none (0),
and the first IP's public address when it is non-empty. -/
def buildPoolRequest (nowUnix : Int) (ips : List IP) : IPPoolCreateRequest :=
  { Name := "Marketing Pool " ++ toString nowUnix
    RoutingStrategy := 0
    Ips := match ips with
      | ip0 :: _ => if ip0.PublicIP ≠ "" then [ip0.PublicIP] else []
      | [] => []
    WarmupInterval := 24
    OverflowStrategy := 0 }

/-- Step: CreateIPPool. It first calls GetAllIps itself; on an empty list
it warns and returns before any pool-creation call. -/
def CreateIPPool (s : RunState) (nowUnix : Int)
    (ipsResult : ApiResult (List IP)) (poolResult : ApiResult IPPool) : StepRet :=
  match ipsResult with
  | .err (some _) => (.failure, s, [.getAllIps])
  | .err none => (.panicked, s, [.getAllIps])
  | .ok ips =>
      if ips.length = 0 then (.skipped, s, [.getAllIps])
      else
        let req := buildPoolRequest nowUnix ips
        match poolResult with
        | .err (some _) => (.failure, s, [.getAllIps, .createIPPoolCall req])
        | .err none => (.panicked, s, [.getAllIps, .createIPPoolCall req])
        | .ok pool =>
            let s1 := match pool.Id with
              | some i => { s with createdIPPoolID := some i }
              | none => s
            let s2 := match pool.Name with
              | some n => { s1 with createdIPPoolName := n }
              | none => s1
            (.success, s2, [.getAllIps, .createIPPoolCall req])

/-- Step: ListIPPools (read-only). -/
def ListIPPools (s : RunState) (r : ApiResult (List IPPool)) : StepRet :=
  match r with
  | .err (some _) => (.failure, s, [.getAllIPPools])
  | .err none => (.panicked, s, [.getAllIPPools])
  | .ok _ => (.success, s, [.getAllIPPools])

/-- Step: SendTransactionalEmail (sub-account scope). The first response
element's MessageId, when present, is written to sentMessageID
UNCONDITIONALLY; an empty response list is a silent no-op. -/
def SendTransactionalEmail (s : RunState) (r : ApiResult (List EmailResponse)) : StepRet :=
  match r with
  | .err (some _) => (.failure, s, [.sendEmail s.createdIPPoolName])
  | .err none => (.panicked, s, [.sendEmail s.createdIPPoolName])
  | .ok responses =>
      match responses with
      | [] => (.silent, s, [.sendEmail s.createdIPPoolName])
      | response :: _ =>
          let s1 := match response.MessageId with
            | some m => { s with sentMessageID := m }
            | none => s
          (.success, s1, [.sendEmail s.createdIPPoolName])

/-- Step: SendMarketingEmail (sub-account scope). Writes sentMessageID
only when it is still empty. -/
def SendMarketingEmail (s : RunState) (r : ApiResult (List EmailResponse)) : StepRet :=
  match r with
  | .err (some _) => (.failure, s, [.sendEmail s.createdIPPoolName])
  | .err none => (.panicked, s, [.sendEmail s.createdIPPoolName])
  | .ok responses =>
      match responses with
      | [] => (.silent, s, [.sendEmail s.createdIPPoolName])
      | response :: _ =>
          let s1 :=
            if s.sentMessageID = "" then
              match response.MessageId with
              | some m => { s with sentMessageID := m }
              | none => s
            else s
          (.success, s1, [.sendEmail s.createdIPPoolName])

/-- Step: GetMessageDetails; returns before any API call when no message
id is available. -/
def GetMessageDetails (s : RunState) (r : ApiResult Unit) : StepRet :=
  if s.sentMessageID = "" then (.skipped, s, [])
  else
    match r with
    | .err (some _) => (.failure, s, [.getMessageById s.sentMessageID])
    | .err none => (.panicked, s, [.getMessageById s.sentMessageID])
    | .ok _ => (.success, s, [.getMessageById s.sentMessageID])

/-- The from-date of the trailing stats window: toDate.AddDate(0, 0, -7). -/
def statsFromDate (today : Int) : Int := today - 7

/-- Step: GetSubAccountStats; returns before any API call when no
sub-account id is available; today is the date at this call site. -/
def GetSubAccountStats (s : RunState) (today : Int) (r : ApiResult Unit) : StepRet :=
  match s.createdSubAccountID with
  | none => (.skipped, s, [])
  | some id =>
      let c := Call.accountSubaccountStatGet id (statsFromDate today) today
      match r with
      | .err (some _) => (.failure, s, [c])
      | .err none => (.panicked, s, [c])
      | .ok _ => (.success, s, [c])

/-- Step: GetAggregateStats; same precondition and window rule as
GetSubAccountStats, with its own time.Now() date. -/
def GetAggregateStats (s : RunState) (today : Int) (r : ApiResult Unit) : StepRet :=
  match s.createdSubAccountID with
  | none => (.skipped, s, [])
  | some id =>
      let c := Call.accountSubaccountStatAggregateGet id (statsFromDate today) today
      match r with
      | .err (some _) => (.failure, s, [c])
      | .err none => (.panicked, s, [c])
      | .ok _ => (.success, s, [c])

/-- Step: GetAccountStats (no precondition). -/
def GetAccountStats (s : RunState) (today : Int) (r : ApiResult Unit) : StepRet :=
  let c := Call.getAllAccountStats (statsFromDate today) today
  match r with
  | .err (some _) => (.failure, s, [c])
  | .err none => (.panicked, s, [c])
  | .ok _ => (.success, s, [c])

/-- One environment of external responses and clock readings for a run,
one field per Execute() call site of RunCompleteWorkflow (CreateIPPool
performs its own GetAllIps, separate from the ListIPs step). -/
structure Env where
  listSubAccountsResult : ApiResult (List SubAccount)
  createWebhookResult : ApiResult Webhook
  listWebhooksResult : ApiResult (List Webhook)
  addDomainResult : ApiResult Domain
  listDomainsResult : ApiResult (List Domain)
  listIPsResult : ApiResult (List IP)
  poolIPsResult : ApiResult (List IP)
  createIPPoolResult : ApiResult IPPool
  listIPPoolsResult : ApiResult (List IPPool)
  sendTransactionalResult : ApiResult (List EmailResponse)
  sendMarketingResult : ApiResult (List EmailResponse)
  subAccountStatsResult : ApiResult Unit
  aggregateStatsResult : ApiResult Unit
  accountStatsResult : ApiResult Unit
  messageDetailsResult : ApiResult Unit
  poolNowUnix : Int
  subStatsDate : Int
  aggStatsDate : Int
  accountStatsDate : Int
deriving DecidableEq

/-- Result of a whole run: whether it ran to completion (false when a
step panicked), the final state, every API call made and each executed
step's outcome. -/
structure RunResult where
  completed : Bool
  finalState : RunState
  calls : List Call
  outcomes : List StepOutcome
deriving DecidableEq

/-- Sequential execution of steps; a Go panic unwinds the process, so a
panicked step ends the run with completed = false. -/
def runSteps (s : RunState) : List (RunState → StepRet) → RunResult
  | [] => { completed := true, finalState := s, calls := [], outcomes := [] }
  | f :: rest =>
      let r := f s
      if outcomeOf r = .panicked then
        { completed := false, finalState := stateOf r, calls := callsOf r,
          outcomes := [outcomeOf r] }
      else
        let after := runSteps (stateOf r) rest
        { completed := after.completed, finalState := after.finalState,
          calls := callsOf r ++ after.calls,
          outcomes := outcomeOf r :: after.outcomes }

/-- The exact step sequence of RunCompleteWorkflow (main.go lines
963-991). CreateSubAccount is NOT part of it. -/
def workflowSteps (env : Env) : List (RunState → StepRet) :=
  [ fun s => ListSubAccounts s env.listSubAccountsResult
  , fun s => CreateWebhook s env.createWebhookResult
  , fun s => ListWebhooks s env.listWebhooksResult
  , fun s => AddDomain s env.addDomainResult
  , fun s => ListDomains s env.listDomainsResult
  , fun s => ListIPs s env.listIPsResult
  , fun s => CreateIPPool s env.poolNowUnix env.poolIPsResult env.createIPPoolResult
  , fun s => ListIPPools s env.listIPPoolsResult
  , fun s => SendTransactionalEmail s env.sendTransactionalResult
  , fun s => SendMarketingEmail s env.sendMarketingResult
  , fun s => GetSubAccountStats s env.subStatsDate env.subAccountStatsResult
  , fun s => GetAggregateStats s env.aggStatsDate env.aggregateStatsResult
  , fun s => GetAccountStats s env.accountStatsDate env.accountStatsResult
  , fun s => GetMessageDetails s env.messageDetailsResult ]

/-- Outcome of RunCompleteWorkflow: the placeholder-API-key warning flag
(a warning only: the code proceeds regardless) and the run itself. -/
structure WorkflowResult where
  warned : Bool
  run : RunResult
deriving DecidableEq

/-- RunCompleteWorkflow (main.go): prints a warning when either key still
has its placeholder default, then runs every step unconditionally. -/
def RunCompleteWorkflow (accountAPIKey subAccountAPIKey : String) (env : Env) : WorkflowResult :=
  { warned := accountAPIKey == accountKeyDefault || subAccountAPIKey == subAccountKeyDefault
    run := runSteps initialRunState (workflowSteps env) }

/-- Holds when no call in the environment fails with a nil HTTP response. -/
def Env.NoNilErrs (env : Env) : Prop :=
  env.listSubAccountsResult.hasResp = true ∧ env.createWebhookResult.hasResp = true ∧
  env.listWebhooksResult.hasResp = true ∧ env.addDomainResult.hasResp = true ∧
  env.listDomainsResult.hasResp = true ∧ env.listIPsResult.hasResp = true ∧
  env.poolIPsResult.hasResp = true ∧ env.createIPPoolResult.hasResp = true ∧
  env.listIPPoolsResult.hasResp = true ∧ env.sendTransactionalResult.hasResp = true ∧
  env.sendMarketingResult.hasResp = true ∧ env.subAccountStatsResult.hasResp = true ∧
  env.aggregateStatsResult.hasResp = true ∧ env.accountStatsResult.hasResp = true ∧
  env.messageDetailsResult.hasResp = true

/-- A fresh-run environment: every call succeeds, the sub-account list is
empty and every optional response field is absent. -/
def benignEnv : Env :=
  { listSubAccountsResult := .ok []
    createWebhookResult := .ok { Id := none, Url := none, Enabled := none }
    listWebhooksResult := .ok []
    addDomainResult := .ok { Id := none, Name := none, Verified := none }
    listDomainsResult := .ok []
    listIPsResult := .ok []
    poolIPsResult := .ok []
    createIPPoolResult := .ok { Id := none, Name := none, RoutingStrategy := none, Ips := none }
    listIPPoolsResult := .ok []
    sendTransactionalResult := .ok []
    sendMarketingResult := .ok []
    subAccountStatsResult := .ok ()
    aggregateStatsResult := .ok ()
    accountStatsResult := .ok ()
    messageDetailsResult := .ok ()
    poolNowUnix := 0
    subStatsDate := 0
    aggStatsDate := 0
    accountStatsDate := 0 }

/-- benignEnv except the very first call fails with a nil HTTP response
(a transport error, as opposed to an HTTP error status). -/
def nilRespEnv : Env := { benignEnv with listSubAccountsResult := .err none }

def testKey : String := "test-key"

def Call.isCreateSubAccount : Call → Bool
  | .createSubAccountCall _ => true
  | _ => false

def Call.isSubAccountStatsCall : Call → Bool
  | .accountSubaccountStatGet _ _ _ => true
  | _ => false

instance (env : Env) : Decidable env.NoNilErrs := by
  unfold Env.NoNilErrs; infer_instance

/- General lemmas about runSteps. -/

theorem runSteps_cons_calls (s : RunState) (f : RunState → StepRet)
    (rest : List (RunState → StepRet)) :
    (runSteps s (f :: rest)).calls =
      if outcomeOf (f s) = .panicked then callsOf (f s)
      else callsOf (f s) ++ (runSteps (stateOf (f s)) rest).calls := by
  simp only [runSteps]
  split <;> rfl

theorem runSteps_no_panic (steps : List (RunState → StepRet)) :
    ∀ s : RunState, (∀ f ∈ steps, ∀ s' : RunState, outcomeOf (f s') ≠ .panicked) →
      (runSteps s steps).completed = true ∧
        (runSteps s steps).outcomes.length = steps.length := by
  induction steps with
  | nil => intro s _; exact ⟨rfl, rfl⟩
  | cons f rest ih =>
      intro s h
      have hf : outcomeOf (f s) ≠ .panicked := h f (List.mem_cons_self f rest) s
      have hrest := ih (stateOf (f s)) (fun g hg s' => h g (List.mem_cons_of_mem f hg) s')
      simp only [runSteps, if_neg hf]
      exact ⟨hrest.1, by simp [hrest.2]⟩

theorem runSteps_inv (p : RunState → Prop) (q : Call → Bool)
    (steps : List (RunState → StepRet)) :
    ∀ s : RunState, p s →
      (∀ f ∈ steps, ∀ s' : RunState, p s' →
        p (stateOf (f s')) ∧ (callsOf (f s')).any q = false) →
      (runSteps s steps).calls.any q = false ∧ p (runSteps s steps).finalState := by
  induction steps with
  | nil => intro s hp _; exact ⟨rfl, hp⟩
  | cons f rest ih =>
      intro s hp h
      have hf := h f (List.mem_cons_self f rest) s hp
      by_cases hpan : outcomeOf (f s) = .panicked
      · simp only [runSteps, if_pos hpan]
        exact ⟨hf.2, hf.1⟩
      · have hrest :=
          ih (stateOf (f s)) hf.1 (fun g hg s' hp' => h g (List.mem_cons_of_mem f hg) s' hp')
        simp only [runSteps, if_neg hpan]
        refine ⟨?_, hrest.2⟩
        simp [List.any_append, hf.2, hrest.1]

/- Per-step lemmas: state unchanged on an API error. -/

theorem ListSubAccounts_err_state (s : RunState) (o : Option Int) :
    stateOf (ListSubAccounts s (.err o)) = s := by cases o <;> rfl

theorem CreateSubAccount_err_state (s : RunState) (n : Int) (o : Option Int) :
    stateOf (CreateSubAccount s n (.err o)) = s := by cases o <;> rfl

theorem CreateWebhook_err_state (s : RunState) (o : Option Int) :
    stateOf (CreateWebhook s (.err o)) = s := by cases o <;> rfl

theorem ListWebhooks_err_state (s : RunState) (o : Option Int) :
    stateOf (ListWebhooks s (.err o)) = s := by cases o <;> rfl

theorem AddDomain_err_state (s : RunState) (o : Option Int) :
    stateOf (AddDomain s (.err o)) = s := by cases o <;> rfl

theorem ListDomains_err_state (s : RunState) (o : Option Int) :
    stateOf (ListDomains s (.err o)) = s := by cases o <;> rfl

theorem ListIPs_err_state (s : RunState) (o : Option Int) :
    stateOf (ListIPs s (.err o)) = s := by cases o <;> rfl

theorem CreateIPPool_ipsErr_state (s : RunState) (n : Int) (o : Option Int)
    (pr : ApiResult IPPool) : stateOf (CreateIPPool s n (.err o) pr) = s := by
  cases o <;> rfl

theorem CreateIPPool_poolErr_state (s : RunState) (n : Int) (ips : List IP)
    (o : Option Int) : stateOf (CreateIPPool s n (.ok ips) (.err o)) = s := by
  cases ips <;> cases o <;> simp [CreateIPPool, stateOf]

theorem ListIPPools_err_state (s : RunState) (o : Option Int) :
    stateOf (ListIPPools s (.err o)) = s := by cases o <;> rfl

theorem SendTransactionalEmail_err_state (s : RunState) (o : Option Int) :
    stateOf (SendTransactionalEmail s (.err o)) = s := by cases o <;> rfl

theorem SendMarketingEmail_err_state (s : RunState) (o : Option Int) :
    stateOf (SendMarketingEmail s (.err o)) = s := by cases o <;> rfl

theorem GetMessageDetails_err_state (s : RunState) (o : Option Int) :
    stateOf (GetMessageDetails s (.err o)) = s := by
  unfold GetMessageDetails
  split
  · rfl
  · cases o <;> rfl

theorem GetSubAccountStats_err_state (s : RunState) (d : Int) (o : Option Int) :
    stateOf (GetSubAccountStats s d (.err o)) = s := by
  cases hsa : s.createdSubAccountID <;> cases o <;>
    simp [GetSubAccountStats, hsa, stateOf]

theorem GetAggregateStats_err_state (s : RunState) (d : Int) (o : Option Int) :
    stateOf (GetAggregateStats s d (.err o)) = s := by
  cases hsa : s.createdSubAccountID <;> cases o <;>
    simp [GetAggregateStats, hsa, stateOf]

theorem GetAccountStats_err_state (s : RunState) (d : Int) (o : Option Int) :
    stateOf (GetAccountStats s d (.err o)) = s := by cases o <;> rfl

/- Per-step lemmas: a step only panics on an error with a nil response. -/

theorem subAccountsLoop_success (sas : List SubAccount) :
    ∀ s : RunState, sas.all (fun sa => sa.Id.isSome) = true →
      (subAccountsLoop s sas).1 = .success := by
  induction sas with
  | nil => intro s _; rfl
  | cons sa rest ih =>
      intro s h
      rw [List.all_cons, Bool.and_eq_true] at h
      cases hid : sa.Id with
      | none => rw [hid] at h; simp [Option.isSome] at h
      | some i =>
          simp only [subAccountsLoop, hid]
          exact ih (adoptSubAccount s sa) h.2

theorem ListSubAccounts_no_panic (s : RunState) (r : ApiResult (List SubAccount))
    (h : r.hasResp = true) (hid : noNilIdListed r = true) :
    outcomeOf (ListSubAccounts s r) ≠ .panicked := by
  cases r with
  | ok v =>
      have hs := subAccountsLoop_success v s (by simpa [noNilIdListed] using hid)
      simp [ListSubAccounts, outcomeOf, hs]
  | err o =>
      cases o with
      | none => simp [ApiResult.hasResp] at h
      | some c => simp [ListSubAccounts, outcomeOf]

theorem CreateWebhook_no_panic (s : RunState) (r : ApiResult Webhook)
    (h : r.hasResp = true) : outcomeOf (CreateWebhook s r) ≠ .panicked := by
  cases r with
  | ok v => simp [CreateWebhook, outcomeOf]
  | err o =>
      cases o with
      | none => simp [ApiResult.hasResp] at h
      | some c => simp [CreateWebhook, outcomeOf]

theorem ListWebhooks_no_panic (s : RunState) (r : ApiResult (List Webhook))
    (h : r.hasResp = true) : outcomeOf (ListWebhooks s r) ≠ .panicked := by
  cases r with
  | ok v => simp [ListWebhooks, outcomeOf]
  | err o =>
      cases o with
      | none => simp [ApiResult.hasResp] at h
      | some c => simp [ListWebhooks, outcomeOf]

theorem AddDomain_no_panic (s : RunState) (r : ApiResult Domain)
    (h : r.hasResp = true) : outcomeOf (AddDomain s r) ≠ .panicked := by
  cases r with
  | ok v => simp [AddDomain, outcomeOf]
  | err o =>
      cases o with
      | none => simp [ApiResult.hasResp] at h
      | some c => simp [AddDomain, outcomeOf]

theorem ListDomains_no_panic (s : RunState) (r : ApiResult (List Domain))
    (h : r.hasResp = true) : outcomeOf (ListDomains s r) ≠ .panicked := by
  cases r with
  | ok v => simp [ListDomains, outcomeOf]
  | err o =>
      cases o with
      | none => simp [ApiResult.hasResp] at h
      | some c => simp [ListDomains, outcomeOf]

theorem ListIPs_no_panic (s : RunState) (r : ApiResult (List IP))
    (h : r.hasResp = true) : outcomeOf (ListIPs s r) ≠ .panicked := by
  cases r with
  | ok v => simp [ListIPs, outcomeOf]
  | err o =>
      cases o with
      | none => simp [ApiResult.hasResp] at h
      | some c => simp [ListIPs, outcomeOf]

theorem CreateIPPool_no_panic (s : RunState) (n : Int) (ir : ApiResult (List IP))
    (pr : ApiResult IPPool) (hi : ir.hasResp = true) (hp : pr.hasResp = true) :
    outcomeOf (CreateIPPool s n ir pr) ≠ .panicked := by
  cases ir with
  | ok ips =>
      cases ips with
      | nil => simp [CreateIPPool, outcomeOf]
      | cons ip0 rest =>
          cases pr with
          | ok pool => simp [CreateIPPool, outcomeOf]
          | err o =>
              cases o with
              | none => simp [ApiResult.hasResp] at hp
              | some c => simp [CreateIPPool, outcomeOf]
  | err o =>
      cases o with
      | none => simp [ApiResult.hasResp] at hi
      | some c => simp [CreateIPPool, outcomeOf]

theorem ListIPPools_no_panic (s : RunState) (r : ApiResult (List IPPool))
    (h : r.hasResp = true) : outcomeOf (ListIPPools s r) ≠ .panicked := by
  cases r with
  | ok v => simp [ListIPPools, outcomeOf]
  | err o =>
      cases o with
      | none => simp [ApiResult.hasResp] at h
      | some c => simp [ListIPPools, outcomeOf]

theorem SendTransactionalEmail_no_panic (s : RunState)
    (r : ApiResult (List EmailResponse)) (h : r.hasResp = true) :
    outcomeOf (SendTransactionalEmail s r) ≠ .panicked := by
  cases r with
  | ok v => cases v <;> simp [SendTransactionalEmail, outcomeOf]
  | err o =>
      cases o with
      | none => simp [ApiResult.hasResp] at h
      | some c => simp [SendTransactionalEmail, outcomeOf]

theorem SendMarketingEmail_no_panic (s : RunState)
    (r : ApiResult (List EmailResponse)) (h : r.hasResp = true) :
    outcomeOf (SendMarketingEmail s r) ≠ .panicked := by
  cases r with
  | ok v => cases v <;> simp [SendMarketingEmail, outcomeOf]
  | err o =>
      cases o with
      | none => simp [ApiResult.hasResp] at h
      | some c => simp [SendMarketingEmail, outcomeOf]

theorem GetSubAccountStats_no_panic (s : RunState) (d : Int) (r : ApiResult Unit)
    (h : r.hasResp = true) : outcomeOf (GetSubAccountStats s d r) ≠ .panicked := by
  cases hsa : s.createdSubAccountID with
  | none => simp [GetSubAccountStats, hsa, outcomeOf]
  | some i =>
      cases r with
      | ok v => simp [GetSubAccountStats, hsa, outcomeOf]
      | err o =>
          cases o with
          | none => simp [ApiResult.hasResp] at h
          | some c => simp [GetSubAccountStats, hsa, outcomeOf]

theorem GetAggregateStats_no_panic (s : RunState) (d : Int) (r : ApiResult Unit)
    (h : r.hasResp = true) : outcomeOf (GetAggregateStats s d r) ≠ .panicked := by
  cases hsa : s.createdSubAccountID with
  | none => simp [GetAggregateStats, hsa, outcomeOf]
  | some i =>
      cases r with
      | ok v => simp [GetAggregateStats, hsa, outcomeOf]
      | err o =>
          cases o with
          | none => simp [ApiResult.hasResp] at h
          | some c => simp [GetAggregateStats, hsa, outcomeOf]

theorem GetAccountStats_no_panic (s : RunState) (d : Int) (r : ApiResult Unit)
    (h : r.hasResp = true) : outcomeOf (GetAccountStats s d r) ≠ .panicked := by
  cases r with
  | ok v => simp [GetAccountStats, outcomeOf]
  | err o =>
      cases o with
      | none => simp [ApiResult.hasResp] at h
      | some c => simp [GetAccountStats, outcomeOf]

theorem GetMessageDetails_no_panic (s : RunState) (r : ApiResult Unit)
    (h : r.hasResp = true) : outcomeOf (GetMessageDetails s r) ≠ .panicked := by
  unfold GetMessageDetails
  split
  · simp [outcomeOf]
  · cases r with
    | ok v => simp [outcomeOf]
    | err o =>
        cases o with
        | none => simp [ApiResult.hasResp] at h
        | some c => simp [outcomeOf]

/- Per-step lemmas: which calls each step can make. -/

theorem ListSubAccounts_calls (s : RunState) (r : ApiResult (List SubAccount)) :
    callsOf (ListSubAccounts s r) = [.getAllSubAccounts] := by
  cases r with
  | ok v => rfl
  | err o => cases o <;> rfl

theorem CreateWebhook_calls (s : RunState) (r : ApiResult Webhook) :
    callsOf (CreateWebhook s r) = [.createWebhookCall webhookURL] := by
  cases r with
  | ok v => rfl
  | err o => cases o <;> rfl

theorem ListWebhooks_calls (s : RunState) (r : ApiResult (List Webhook)) :
    callsOf (ListWebhooks s r) = [.getAllWebhooks] := by
  cases r with
  | ok v => rfl
  | err o => cases o <;> rfl

theorem AddDomain_calls (s : RunState) (r : ApiResult Domain) :
    callsOf (AddDomain s r) = [.subaccountDomainPost testDomainName] := by
  cases r with
  | ok v => rfl
  | err o => cases o <;> rfl

theorem ListDomains_calls (s : RunState) (r : ApiResult (List Domain)) :
    callsOf (ListDomains s r) = [.getAllDomains] := by
  cases r with
  | ok v => rfl
  | err o => cases o <;> rfl

theorem ListIPs_calls (s : RunState) (r : ApiResult (List IP)) :
    callsOf (ListIPs s r) = [.getAllIps] := by
  cases r with
  | ok v => rfl
  | err o => cases o <;> rfl

theorem CreateIPPool_calls (s : RunState) (n : Int) (ir : ApiResult (List IP))
    (pr : ApiResult IPPool) :
    callsOf (CreateIPPool s n ir pr) = [.getAllIps] ∨
    ∃ req, callsOf (CreateIPPool s n ir pr) = [.getAllIps, .createIPPoolCall req] := by
  cases ir with
  | ok ips =>
      cases ips with
      | nil => left; rfl
      | cons ip0 rest =>
          right
          refine ⟨buildPoolRequest n (ip0 :: rest), ?_⟩
          cases pr with
          | ok pool => rfl
          | err o => cases o <;> rfl
  | err o => cases o <;> (left; rfl)

theorem ListIPPools_calls (s : RunState) (r : ApiResult (List IPPool)) :
    callsOf (ListIPPools s r) = [.getAllIPPools] := by
  cases r with
  | ok v => rfl
  | err o => cases o <;> rfl

theorem SendTransactionalEmail_calls (s : RunState) (r : ApiResult (List EmailResponse)) :
    callsOf (SendTransactionalEmail s r) = [.sendEmail s.createdIPPoolName] := by
  cases r with
  | ok v => cases v <;> rfl
  | err o => cases o <;> rfl

theorem SendMarketingEmail_calls (s : RunState) (r : ApiResult (List EmailResponse)) :
    callsOf (SendMarketingEmail s r) = [.sendEmail s.createdIPPoolName] := by
  cases r with
  | ok v => cases v <;> rfl
  | err o => cases o <;> rfl

theorem GetSubAccountStats_calls (s : RunState) (d : Int) (r : ApiResult Unit) :
    callsOf (GetSubAccountStats s d r) = [] ∨
    ∃ i, callsOf (GetSubAccountStats s d r) =
      [.accountSubaccountStatGet i (statsFromDate d) d] := by
  cases hsa : s.createdSubAccountID with
  | none => left; simp [GetSubAccountStats, hsa, callsOf]
  | some i =>
      right
      refine ⟨i, ?_⟩
      cases r with
      | ok v => simp [GetSubAccountStats, hsa, callsOf]
      | err o => cases o <;> simp [GetSubAccountStats, hsa, callsOf]

theorem GetAggregateStats_calls (s : RunState) (d : Int) (r : ApiResult Unit) :
    callsOf (GetAggregateStats s d r) = [] ∨
    ∃ i, callsOf (GetAggregateStats s d r) =
      [.accountSubaccountStatAggregateGet i (statsFromDate d) d] := by
  cases hsa : s.createdSubAccountID with
  | none => left; simp [GetAggregateStats, hsa, callsOf]
  | some i =>
      right
      refine ⟨i, ?_⟩
      cases r with
      | ok v => simp [GetAggregateStats, hsa, callsOf]
      | err o => cases o <;> simp [GetAggregateStats, hsa, callsOf]

theorem GetAccountStats_calls (s : RunState) (d : Int) (r : ApiResult Unit) :
    callsOf (GetAccountStats s d r) = [.getAllAccountStats (statsFromDate d) d] := by
  cases r with
  | ok v => rfl
  | err o => cases o <;> rfl

theorem GetMessageDetails_calls (s : RunState) (r : ApiResult Unit) :
    callsOf (GetMessageDetails s r) = [] ∨
    callsOf (GetMessageDetails s r) = [.getMessageById s.sentMessageID] := by
  unfold GetMessageDetails
  split
  · left; rfl
  · right
    cases r with
    | ok v => rfl
    | err o => cases o <;> rfl

/- Per-step lemmas: no workflow step ever writes createdSubAccountID
except ListSubAccounts (and the never-invoked CreateSubAccount). -/

theorem CreateWebhook_subID (s : RunState) (r : ApiResult Webhook) :
    (stateOf (CreateWebhook s r)).createdSubAccountID = s.createdSubAccountID := by
  cases r with
  | ok wh => cases h : wh.Id <;> simp [CreateWebhook, stateOf, h]
  | err o => cases o <;> rfl

theorem ListWebhooks_subID (s : RunState) (r : ApiResult (List Webhook)) :
    (stateOf (ListWebhooks s r)).createdSubAccountID = s.createdSubAccountID := by
  cases r with
  | ok v => rfl
  | err o => cases o <;> rfl

theorem AddDomain_subID (s : RunState) (r : ApiResult Domain) :
    (stateOf (AddDomain s r)).createdSubAccountID = s.createdSubAccountID := by
  cases r with
  | ok d => cases h : d.Id <;> simp [AddDomain, stateOf, h]
  | err o => cases o <;> rfl

theorem ListDomains_subID (s : RunState) (r : ApiResult (List Domain)) :
    (stateOf (ListDomains s r)).createdSubAccountID = s.createdSubAccountID := by
  cases r with
  | ok v => rfl
  | err o => cases o <;> rfl

theorem ListIPs_subID (s : RunState) (r : ApiResult (List IP)) :
    (stateOf (ListIPs s r)).createdSubAccountID = s.createdSubAccountID := by
  cases r with
  | ok v => rfl
  | err o => cases o <;> rfl

theorem CreateIPPool_subID (s : RunState) (n : Int) (ir : ApiResult (List IP))
    (pr : ApiResult IPPool) :
    (stateOf (CreateIPPool s n ir pr)).createdSubAccountID = s.createdSubAccountID := by
  cases ir with
  | ok ips =>
      cases ips with
      | nil => rfl
      | cons ip0 rest =>
          cases pr with
          | ok pool =>
              cases hi : pool.Id <;> cases hn : pool.Name <;>
                simp [CreateIPPool, stateOf, hi, hn]
          | err o => cases o <;> simp [CreateIPPool, stateOf]
  | err o => cases o <;> rfl

theorem ListIPPools_subID (s : RunState) (r : ApiResult (List IPPool)) :
    (stateOf (ListIPPools s r)).createdSubAccountID = s.createdSubAccountID := by
  cases r with
  | ok v => rfl
  | err o => cases o <;> rfl

theorem SendTransactionalEmail_subID (s : RunState) (r : ApiResult (List EmailResponse)) :
    (stateOf (SendTransactionalEmail s r)).createdSubAccountID = s.createdSubAccountID := by
  cases r with
  | ok v =>
      cases v with
      | nil => rfl
      | cons response rest =>
          cases h : response.MessageId <;> simp [SendTransactionalEmail, stateOf, h]
  | err o => cases o <;> rfl

theorem SendMarketingEmail_subID (s : RunState) (r : ApiResult (List EmailResponse)) :
    (stateOf (SendMarketingEmail s r)).createdSubAccountID = s.createdSubAccountID := by
  cases r with
  | ok v =>
      cases v with
      | nil => rfl
      | cons response rest =>
          by_cases he : s.sentMessageID = "" <;>
            cases h : response.MessageId <;>
              simp [SendMarketingEmail, stateOf, h, he]
  | err o => cases o <;> rfl

theorem GetSubAccountStats_subID (s : RunState) (d : Int) (r : ApiResult Unit) :
    (stateOf (GetSubAccountStats s d r)).createdSubAccountID = s.createdSubAccountID := by
  cases hsa : s.createdSubAccountID with
  | none => simp [GetSubAccountStats, hsa, stateOf]
  | some i =>
      cases r with
      | ok v => simp [GetSubAccountStats, hsa, stateOf]
      | err o => cases o <;> simp [GetSubAccountStats, hsa, stateOf]

theorem GetAggregateStats_subID (s : RunState) (d : Int) (r : ApiResult Unit) :
    (stateOf (GetAggregateStats s d r)).createdSubAccountID = s.createdSubAccountID := by
  cases hsa : s.createdSubAccountID with
  | none => simp [GetAggregateStats, hsa, stateOf]
  | some i =>
      cases r with
      | ok v => simp [GetAggregateStats, hsa, stateOf]
      | err o => cases o <;> simp [GetAggregateStats, hsa, stateOf]

theorem GetAccountStats_subID (s : RunState) (d : Int) (r : ApiResult Unit) :
    (stateOf (GetAccountStats s d r)).createdSubAccountID = s.createdSubAccountID := by
  cases r with
  | ok v => rfl
  | err o => cases o <;> rfl

theorem GetMessageDetails_subID (s : RunState) (r : ApiResult Unit) :
    (stateOf (GetMessageDetails s r)).createdSubAccountID = s.createdSubAccountID := by
  unfold GetMessageDetails
  split
  · rfl
  · cases r with
    | ok v => rfl
    | err o => cases o <;> rfl

/-- When the stats prerequisite is missing the step is a pure skip. -/
theorem GetSubAccountStats_skip (s : RunState) (d : Int) (r : ApiResult Unit)
    (h : s.createdSubAccountID = none) :
    GetSubAccountStats s d r = (.skipped, s, []) := by
  simp [GetSubAccountStats, h]

theorem GetAggregateStats_skip (s : RunState) (d : Int) (r : ApiResult Unit)
    (h : s.createdSubAccountID = none) :
    GetAggregateStats s d r = (.skipped, s, []) := by
  simp [GetAggregateStats, h]

theorem GetMessageDetails_skip (s : RunState) (r : ApiResult Unit)
    (h : s.sentMessageID = "") : GetMessageDetails s r = (.skipped, s, []) := by
  simp [GetMessageDetails, h]

/- Concrete states and values used by the claim theorems. -/

def existingID : String := "existing-id"

def newID : String := "new-id"

def sampleIPAddr : String := "1.2.3.4"

/-- A state in which a message id has already been recorded. -/
def stateWithMessage : RunState := { initialRunState with sentMessageID := existingID }

/-- A state in which a sub-account id has already been recorded. -/
def stateWithSub : RunState := { initialRunState with createdSubAccountID := some 1 }

/-- A run environment in which one sub-account exists and the local date
advances from day 0 to day 1 between the two stats steps (the run crosses
midnight); every call succeeds. -/
def crossMidnightEnv : Env :=
  { benignEnv with
      listSubAccountsResult :=
        .ok [{ Id := some 1, Name := none, ApiKey := none, Typ := none,
               Blocked := none, Created := none }]
      subStatsDate := 0
      aggStatsDate := 1 }

/-- C1 counterexample: in a fresh run whose step 1 (list sub-accounts)
returns the empty list, RunCompleteWorkflow runs to completion without
ever invoking the create-sub-account operation, no sub-account statistics
call is ever attempted, and the final state still has no sub-account id —
contradicting the claim that step 2 executes and step 12 is attempted. -/
theorem C1_counterexample :
    benignEnv.listSubAccountsResult = .ok [] ∧
    (RunCompleteWorkflow testKey testKey benignEnv).run.completed = true ∧
    (RunCompleteWorkflow testKey testKey benignEnv).run.calls.any
      Call.isCreateSubAccount = false ∧
    (RunCompleteWorkflow testKey testKey benignEnv).run.calls.any
      Call.isSubAccountStatsCall = false ∧
    (RunCompleteWorkflow testKey testKey benignEnv).run.finalState.createdSubAccountID
      = none := by
  decide

/-- C1 (amended): RunCompleteWorkflow never invokes the create-sub-account
operation in any run, and whenever step 1 returns an empty sub-account
list the sub-account id stays unset for the whole run, so the sub-account
statistics step is skipped and no statistics call for a sub-account is
ever issued. -/
theorem C1_amended_no_createSubAccount :
    ∀ (k1 k2 : String) (env : Env),
      (RunCompleteWorkflow k1 k2 env).run.calls.any Call.isCreateSubAccount = false ∧
      (env.listSubAccountsResult = .ok [] →
        (RunCompleteWorkflow k1 k2 env).run.calls.any Call.isSubAccountStatsCall = false ∧
        (RunCompleteWorkflow k1 k2 env).run.finalState.createdSubAccountID = none) := by
  intro k1 k2 env
  constructor
  · have h := runSteps_inv (fun _ => True) Call.isCreateSubAccount
      (workflowSteps env) initialRunState trivial ?_
    · exact h.1
    · intro f hf s' _
      refine ⟨trivial, ?_⟩
      simp only [workflowSteps, List.mem_cons, List.not_mem_nil, or_false] at hf
      rcases hf with rfl | rfl | rfl | rfl | rfl | rfl | rfl | rfl | rfl | rfl | rfl |
        rfl | rfl | rfl
      · simp [ListSubAccounts_calls, Call.isCreateSubAccount]
      · simp [CreateWebhook_calls, Call.isCreateSubAccount]
      · simp [ListWebhooks_calls, Call.isCreateSubAccount]
      · simp [AddDomain_calls, Call.isCreateSubAccount]
      · simp [ListDomains_calls, Call.isCreateSubAccount]
      · simp [ListIPs_calls, Call.isCreateSubAccount]
      · rcases CreateIPPool_calls s' env.poolNowUnix env.poolIPsResult
            env.createIPPoolResult with h | ⟨req, h⟩ <;>
          simp [h, Call.isCreateSubAccount]
      · simp [ListIPPools_calls, Call.isCreateSubAccount]
      · simp [SendTransactionalEmail_calls, Call.isCreateSubAccount]
      · simp [SendMarketingEmail_calls, Call.isCreateSubAccount]
      · rcases GetSubAccountStats_calls s' env.subStatsDate env.subAccountStatsResult
            with h | ⟨i, h⟩ <;> simp [h, Call.isCreateSubAccount]
      · rcases GetAggregateStats_calls s' env.aggStatsDate env.aggregateStatsResult
            with h | ⟨i, h⟩ <;> simp [h, Call.isCreateSubAccount]
      · simp [GetAccountStats_calls, Call.isCreateSubAccount]
      · rcases GetMessageDetails_calls s' env.messageDetailsResult with h | h <;>
          simp [h, Call.isCreateSubAccount]
  · intro hls
    have h := runSteps_inv (fun st => st.createdSubAccountID = none)
      Call.isSubAccountStatsCall (workflowSteps env) initialRunState rfl ?_
    · exact ⟨h.1, h.2⟩
    · intro f hf s' hp'
      simp only [workflowSteps, List.mem_cons, List.not_mem_nil, or_false] at hf
      rcases hf with rfl | rfl | rfl | rfl | rfl | rfl | rfl | rfl | rfl | rfl | rfl |
        rfl | rfl | rfl
      · constructor
        · simp [hls, ListSubAccounts, subAccountsLoop, stateOf, hp']
        · simp [ListSubAccounts_calls, Call.isSubAccountStatsCall]
      · exact ⟨by simp [CreateWebhook_subID, hp'],
          by simp [CreateWebhook_calls, Call.isSubAccountStatsCall]⟩
      · exact ⟨by simp [ListWebhooks_subID, hp'],
          by simp [ListWebhooks_calls, Call.isSubAccountStatsCall]⟩
      · exact ⟨by simp [AddDomain_subID, hp'],
          by simp [AddDomain_calls, Call.isSubAccountStatsCall]⟩
      · exact ⟨by simp [ListDomains_subID, hp'],
          by simp [ListDomains_calls, Call.isSubAccountStatsCall]⟩
      · exact ⟨by simp [ListIPs_subID, hp'],
          by simp [ListIPs_calls, Call.isSubAccountStatsCall]⟩
      · refine ⟨by simp [CreateIPPool_subID, hp'], ?_⟩
        rcases CreateIPPool_calls s' env.poolNowUnix env.poolIPsResult
            env.createIPPoolResult with h | ⟨req, h⟩ <;>
          simp [h, Call.isSubAccountStatsCall]
      · exact ⟨by simp [ListIPPools_subID, hp'],
          by simp [ListIPPools_calls, Call.isSubAccountStatsCall]⟩
      · exact ⟨by simp [SendTransactionalEmail_subID, hp'],
          by simp [SendTransactionalEmail_calls, Call.isSubAccountStatsCall]⟩
      · exact ⟨by simp [SendMarketingEmail_subID, hp'],
          by simp [SendMarketingEmail_calls, Call.isSubAccountStatsCall]⟩
      · have hskip := GetSubAccountStats_skip s' env.subStatsDate
          env.subAccountStatsResult hp'
        exact ⟨by simp [hskip, stateOf, hp'], by simp [hskip, callsOf]⟩
      · have hskip := GetAggregateStats_skip s' env.aggStatsDate
          env.aggregateStatsResult hp'
        exact ⟨by simp [hskip, stateOf, hp'], by simp [hskip, callsOf]⟩
      · exact ⟨by simp [GetAccountStats_subID, hp'],
          by simp [GetAccountStats_calls, Call.isSubAccountStatsCall]⟩
      · refine ⟨by simp [GetMessageDetails_subID, hp'], ?_⟩
        rcases GetMessageDetails_calls s' env.messageDetailsResult with h | h <;>
          simp [h, Call.isSubAccountStatsCall]

/-- C1 witness for the amended theorem, at the fresh-run environment. -/
theorem C1_amended_witness :
    (RunCompleteWorkflow testKey testKey benignEnv).run.calls.any
        Call.isSubAccountStatsCall = false ∧
    (RunCompleteWorkflow testKey testKey benignEnv).run.finalState.createdSubAccountID
        = none :=
  (C1_amended_no_createSubAccount testKey testKey benignEnv).2 rfl

/-- C2: for every step and every input state, an external-API error (with
or without an HTTP response, and for CreateIPPool on either of its two
calls) leaves the run state exactly as it was — no partial writes on
failure. -/
theorem C2_failure_preserves_state :
    ∀ (s : RunState) (o : Option Int) (n d : Int) (ips : List IP)
      (pr : ApiResult IPPool),
      stateOf (ListSubAccounts s (.err o)) = s ∧
      stateOf (CreateSubAccount s n (.err o)) = s ∧
      stateOf (CreateWebhook s (.err o)) = s ∧
      stateOf (ListWebhooks s (.err o)) = s ∧
      stateOf (AddDomain s (.err o)) = s ∧
      stateOf (ListDomains s (.err o)) = s ∧
      stateOf (ListIPs s (.err o)) = s ∧
      stateOf (CreateIPPool s n (.err o) pr) = s ∧
      stateOf (CreateIPPool s n (.ok ips) (.err o)) = s ∧
      stateOf (ListIPPools s (.err o)) = s ∧
      stateOf (SendTransactionalEmail s (.err o)) = s ∧
      stateOf (SendMarketingEmail s (.err o)) = s ∧
      stateOf (GetSubAccountStats s d (.err o)) = s ∧
      stateOf (GetAggregateStats s d (.err o)) = s ∧
      stateOf (GetAccountStats s d (.err o)) = s ∧
      stateOf (GetMessageDetails s (.err o)) = s :=
  fun s o n d ips pr =>
    ⟨ListSubAccounts_err_state s o, CreateSubAccount_err_state s n o,
     CreateWebhook_err_state s o, ListWebhooks_err_state s o,
     AddDomain_err_state s o, ListDomains_err_state s o,
     ListIPs_err_state s o, CreateIPPool_ipsErr_state s n o pr,
     CreateIPPool_poolErr_state s n ips o, ListIPPools_err_state s o,
     SendTransactionalEmail_err_state s o, SendMarketingEmail_err_state s o,
     GetSubAccountStats_err_state s d o, GetAggregateStats_err_state s d o,
     GetAccountStats_err_state s d o, GetMessageDetails_err_state s o⟩

/-- C3 counterexample: when the very first call fails with a nil HTTP
response (a transport error), the failure branch dereferences
resp.StatusCode, panics, and the run aborts after step 1: no later step
runs and no later call is made — contradicting the claim that no step
error is fatal, with or without an accompanying HTTP response. -/
theorem C3_counterexample :
    nilRespEnv.listSubAccountsResult = .err none ∧
    (RunCompleteWorkflow testKey testKey nilRespEnv).run.completed = false ∧
    (RunCompleteWorkflow testKey testKey nilRespEnv).run.outcomes = [.panicked] ∧
    (RunCompleteWorkflow testKey testKey nilRespEnv).run.calls = [.getAllSubAccounts] := by
  decide

/-- C3 (amended): as long as every failing call carries a non-nil HTTP
response AND every sub-account returned by the list step carries a
non-nil Id, no step error is fatal: every step's failure handling
terminates normally, all 14 workflow steps execute in order, and the run
always completes. (Either a nil-response error, via resp.StatusCode, or a
successfully listed nil-Id sub-account, via the unconditional
subAccount.Id dereference, panics and aborts the run.) -/
theorem C3_amended_no_fatal_with_resp :
    ∀ (k1 k2 : String) (env : Env), env.NoNilErrs →
      noNilIdListed env.listSubAccountsResult = true →
      (RunCompleteWorkflow k1 k2 env).run.completed = true ∧
      (RunCompleteWorkflow k1 k2 env).run.outcomes.length = 14 := by
  intro k1 k2 env h hid
  obtain ⟨h1, h2, h3, h4, h5, h6, h7, h8, h9, h10, h11, h12, h13, h14, h15⟩ := h
  have hrun := runSteps_no_panic (workflowSteps env) initialRunState ?_
  · refine ⟨hrun.1, ?_⟩
    have hlen : (workflowSteps env).length = 14 := rfl
    exact hrun.2.trans hlen
  · intro f hf s'
    simp only [workflowSteps, List.mem_cons, List.not_mem_nil, or_false] at hf
    rcases hf with rfl | rfl | rfl | rfl | rfl | rfl | rfl | rfl | rfl | rfl | rfl |
      rfl | rfl | rfl
    · exact ListSubAccounts_no_panic s' _ h1 hid
    · exact CreateWebhook_no_panic s' _ h2
    · exact ListWebhooks_no_panic s' _ h3
    · exact AddDomain_no_panic s' _ h4
    · exact ListDomains_no_panic s' _ h5
    · exact ListIPs_no_panic s' _ h6
    · exact CreateIPPool_no_panic s' _ _ _ h7 h8
    · exact ListIPPools_no_panic s' _ h9
    · exact SendTransactionalEmail_no_panic s' _ h10
    · exact SendMarketingEmail_no_panic s' _ h11
    · exact GetSubAccountStats_no_panic s' _ _ h12
    · exact GetAggregateStats_no_panic s' _ _ h13
    · exact GetAccountStats_no_panic s' _ _ h14
    · exact GetMessageDetails_no_panic s' _ h15

/-- C3 witness for the amended theorem, at an all-successful environment. -/
theorem C3_amended_witness :
    benignEnv.NoNilErrs ∧
    noNilIdListed benignEnv.listSubAccountsResult = true ∧
    (RunCompleteWorkflow testKey testKey benignEnv).run.completed = true :=
  ⟨by decide, by decide,
    (C3_amended_no_fatal_with_resp testKey testKey benignEnv (by decide) (by decide)).1⟩

/-- C4 counterexample: with both API keys left at their structurally
invalid placeholder defaults the workflow only raises its warning flag and
still issues external-API calls, the first being the list-sub-accounts
operation — contradicting the claim that for every structurally invalid
configuration no step's external-API operation is invoked. -/
theorem C4_counterexample :
    (RunCompleteWorkflow accountKeyDefault subAccountKeyDefault benignEnv).warned
      = true ∧
    (RunCompleteWorkflow accountKeyDefault subAccountKeyDefault benignEnv).run.calls
      ≠ [] ∧
    (RunCompleteWorkflow accountKeyDefault subAccountKeyDefault benignEnv).run.calls.head?
      = some .getAllSubAccounts := by
  decide

/-- C4 (amended): the only local configuration check is comparing the two
API keys against their placeholder defaults, which merely sets a printed
warning; the run itself is identical for every configuration (the webhook
URL is a compile-time constant and is never validated), and the first
external-API call (list sub-accounts) is always issued. -/
theorem C4_amended_warn_then_proceed :
    ∀ (k1 k2 : String) (env : Env),
      (RunCompleteWorkflow k1 k2 env).warned =
        (k1 == accountKeyDefault || k2 == subAccountKeyDefault) ∧
      (RunCompleteWorkflow k1 k2 env).run = runSteps initialRunState (workflowSteps env) ∧
      (RunCompleteWorkflow k1 k2 env).run.calls.head? = some .getAllSubAccounts := by
  intro k1 k2 env
  refine ⟨rfl, rfl, ?_⟩
  show (runSteps initialRunState (workflowSteps env)).calls.head?
    = some .getAllSubAccounts
  rw [workflowSteps, runSteps_cons_calls]
  split
  · simp only [ListSubAccounts_calls, List.head?_cons]
  · simp only [ListSubAccounts_calls, List.singleton_append, List.head?_cons]

/-- C5 counterexample: in a state where sent_message_id is already set,
the transactional-send step overwrites it with the first response's
message id — contradicting the claim that it writes sent_message_id only
if it is unset. -/
theorem C5_counterexample :
    stateWithMessage.sentMessageID = existingID ∧ existingID ≠ "" ∧
    (stateOf (SendTransactionalEmail stateWithMessage
        (.ok [{ MessageId := some newID, To := none }]))).sentMessageID = newID := by
  decide

/-- C5 (amended): the marketing-send step writes sent_message_id only if
it is still unset and never overwrites a set value, while the
transactional-send step writes the first response's message id
unconditionally, overwriting any previous value; within the workflow the
transactional step is the first possible writer, so first-success-wins
holds for the run as executed. -/
theorem C5_amended_first_success :
    ∀ (s : RunState) (r : ApiResult (List EmailResponse)),
      (s.sentMessageID ≠ "" →
        (stateOf (SendMarketingEmail s r)).sentMessageID = s.sentMessageID) ∧
      ∀ (m : String) (topt : Option String) (rest : List EmailResponse),
        (stateOf (SendTransactionalEmail s
          (.ok ({ MessageId := some m, To := topt } :: rest)))).sentMessageID = m := by
  intro s r
  constructor
  · intro hne
    cases r with
    | ok v =>
        cases v with
        | nil => rfl
        | cons response rest => simp [SendMarketingEmail, stateOf, hne]
    | err o => cases o <;> rfl
  · intro m topt rest
    simp [SendTransactionalEmail, stateOf]

/-- C5 witness for the amended theorem: a set sent_message_id survives the
marketing step even when the response carries a fresh message id. -/
theorem C5_amended_witness :
    stateWithMessage.sentMessageID ≠ "" ∧
    (stateOf (SendMarketingEmail stateWithMessage
        (.ok [{ MessageId := some newID, To := none }]))).sentMessageID =
      stateWithMessage.sentMessageID :=
  ⟨by decide,
    (C5_amended_first_success stateWithMessage
      (.ok [{ MessageId := some newID, To := none }])).1 (by decide)⟩

/-- C6: whenever the IP listing inside the create-IP-pool step returns
exactly one IP whose public address is 1.2.3.4, the step issues first the
IP-listing call and then a pool-creation request containing exactly that
one IP, routing strategy round-robin (0), warmup interval 24 hours and
overflow strategy none (0) — for every state, clock value and
pool-creation outcome. -/
theorem C6_pool_request_exact :
    ∀ (s : RunState) (n idv cr : Int) (rdns : Option String) (pr : ApiResult IPPool),
      callsOf (CreateIPPool s n
          (.ok [{ Id := idv, PublicIP := sampleIPAddr,
                  ReverseDNSHostname := rdns, Created := cr }]) pr) =
        [.getAllIps,
         .createIPPoolCall
           { Name := "Marketing Pool " ++ toString n
             RoutingStrategy := 0
             Ips := [sampleIPAddr]
             WarmupInterval := 24
             OverflowStrategy := 0 }] := by
  intro s n idv cr rdns pr
  cases pr with
  | ok pool => rfl
  | err o => cases o <;> rfl

/-- C7: when the IP list available to the create-IP-pool step is empty,
the step is reported as skipped (not failed), only the IP-listing call is
made (no pool-creation call), and the state — in particular ip_pool_id
and ip_pool_name — is returned unchanged. -/
theorem C7_empty_ips_skip :
    ∀ (s : RunState) (n : Int) (pr : ApiResult IPPool),
      CreateIPPool s n (.ok []) pr = (.skipped, s, [.getAllIps]) := by
  intro s n pr
  rfl

/-- C8 counterexample: a run in which one sub-account exists and the
local date advances from day 0 to day 1 between the sub-account stats
step and the aggregate stats step performs the two statistics calls with
different windows ([-7, 0] versus [-6, 1]) in the same invocation —
contradicting the claim that the two steps always use an identical
window in one invocation. -/
theorem C8_counterexample :
    (Call.accountSubaccountStatGet 1 (-7) 0) ∈
      (RunCompleteWorkflow testKey testKey crossMidnightEnv).run.calls ∧
    (Call.accountSubaccountStatAggregateGet 1 (-6) 1) ∈
      (RunCompleteWorkflow testKey testKey crossMidnightEnv).run.calls ∧
    ((-7 : Int), (0 : Int)) ≠ ((-6 : Int), (1 : Int)) := by
  decide

/-- C8 (amended): each statistics step computes its window at its own
call time, with from_date = to_date - 7 days and to_date = that call's
date; the sub-account stats step and the aggregate stats step use the
identical window rule, so their windows coincide whenever both execute on
the same local date — but the code recomputes the date per step and does
not guarantee identity if the local date changes between the two calls. -/
theorem C8_amended_window :
    ∀ (s : RunState) (i d : Int) (r r2 : ApiResult Unit),
      s.createdSubAccountID = some i →
      callsOf (GetSubAccountStats s d r) =
        [.accountSubaccountStatGet i (d - 7) d] ∧
      callsOf (GetAggregateStats s d r2) =
        [.accountSubaccountStatAggregateGet i (d - 7) d] := by
  intro s i d r r2 h
  constructor
  · cases r with
    | ok v => simp [GetSubAccountStats, h, callsOf, statsFromDate]
    | err o => cases o <;> simp [GetSubAccountStats, h, callsOf, statsFromDate]
  · cases r2 with
    | ok v => simp [GetAggregateStats, h, callsOf, statsFromDate]
    | err o => cases o <;> simp [GetAggregateStats, h, callsOf, statsFromDate]

/-- C8 witness for the amended theorem, on day 3 with sub-account id 1. -/
theorem C8_amended_witness :
    callsOf (GetSubAccountStats stateWithSub 3 (.ok ())) =
      [.accountSubaccountStatGet 1 (3 - 7) 3] ∧
    callsOf (GetAggregateStats stateWithSub 3 (.ok ())) =
      [.accountSubaccountStatAggregateGet 1 (3 - 7) 3] :=
  C8_amended_window stateWithSub 1 3 (.ok ()) (.ok ()) rfl

/-- C9: with the prerequisite state field unset, the sub-account stats
step and the aggregate stats step (sub-account id unset) and the message
details step (sent message id unset) are pure skips: outcome skipped, no
API call at all, state returned unchanged. -/
theorem C9_prereq_skip :
    ∀ (s : RunState) (d d2 : Int) (r r2 r3 : ApiResult Unit),
      (s.createdSubAccountID = none →
        GetSubAccountStats s d r = (.skipped, s, []) ∧
        GetAggregateStats s d2 r2 = (.skipped, s, [])) ∧
      (s.sentMessageID = "" →
        GetMessageDetails s r3 = (.skipped, s, [])) := by
  intro s d d2 r r2 r3
  exact ⟨fun h => ⟨GetSubAccountStats_skip s d r h, GetAggregateStats_skip s d2 r2 h⟩,
    fun h => GetMessageDetails_skip s r3 h⟩

/-- C9 witness at the fresh initial state (both prerequisites unset). -/
theorem C9_witness :
    GetSubAccountStats initialRunState 0 (.ok ()) = (.skipped, initialRunState, []) ∧
    GetAggregateStats initialRunState 0 (.ok ()) = (.skipped, initialRunState, []) ∧
    GetMessageDetails initialRunState (.ok ()) = (.skipped, initialRunState, []) :=
  ⟨((C9_prereq_skip initialRunState 0 0 (.ok ()) (.ok ()) (.ok ())).1 rfl).1,
   ((C9_prereq_skip initialRunState 0 0 (.ok ()) (.ok ()) (.ok ())).1 rfl).2,
   (C9_prereq_skip initialRunState 0 0 (.ok ()) (.ok ()) (.ok ())).2 rfl⟩

/-- C10: when a send step's call succeeds with an empty response list the
step is a silent no-op: outcome silent (neither the failure report nor
the success confirmation is printed), the state — in particular
sent_message_id — is unchanged, and only the send call was made. -/
theorem C10_empty_response_silent :
    ∀ (s : RunState),
      SendTransactionalEmail s (.ok []) =
        (.silent, s, [.sendEmail s.createdIPPoolName]) ∧
      SendMarketingEmail s (.ok []) =
        (.silent, s, [.sendEmail s.createdIPPoolName]) :=
  fun _ => ⟨rfl, rfl⟩

end ESP
